import Mathlib

/-!
Verification development for the OSM-roads-comparison repository
(GRASS scripts `v.osm.precomp` and `v.osm.preproc`).

The two Python 2 scripts orchestrate external GRASS commands.  Their own
logic — parsing the tabular text output of `v.info` / `v.to.db` /
`v.db.select`, summing lengths, the angular-coefficient comparison, the
control flow around fatal aborts and temporary-map removal, and the layout
of the plain-text report — is embedded here as executable Lean functions.
External command invocations are recorded in a trace (`Cmd`), and the text
each external command would print is supplied by oracle structures
(`LengthOutputs`, `CoeffOutputs`, worlds), so that every claim about the
scripts' own logic becomes a statement about these functions.

Python exceptions are modelled with `Except PyErr`; Python float values are
modelled as rationals, with the transcendental functions `math.atan` /
`math.degrees` and the `str()` rendering used by `%s` kept as parameters
(`MathOps`), since no claim depends on their actual values.
-/

/-- Errors a Python expression in these scripts can raise. -/
inductive PyErr where
  | indexError : PyErr
  | valueError : PyErr
  | zeroDivision : PyErr
  | unboundLocal (v : String) : PyErr
  | fatal (msg : String) : PyErr
deriving DecidableEq, Repr

deriving instance DecidableEq for Except

/-- Split a character list at every occurrence of `sep`, keeping empty
segments, exactly like Python `str.split(sep)` for a one-character
separator. -/
def splitOnChar (sep : Char) : List Char → List (List Char)
  | [] => [[]]
  | c :: rest =>
    let r := splitOnChar sep rest
    if c = sep then [] :: r
    else
      match r with
      | [] => [[c]]
      | g :: gs => (c :: g) :: gs

/-- Python `s.split(sep)` for a one-character separator. -/
def pySplit (s : String) (sep : Char) : List String :=
  (splitOnChar sep s.data).map (fun cs => ⟨cs⟩)

/-- Python `s.strip()` on a character list. -/
def trimChars (cs : List Char) : List Char :=
  ((cs.dropWhile Char.isWhitespace).reverse.dropWhile Char.isWhitespace).reverse

/-- Numeric value of a digit list (most significant first). -/
def digitsVal (cs : List Char) : ℕ :=
  cs.foldl (fun n c => n * 10 + (c.toNat - 48)) 0

/-- True when the list is a nonempty run of decimal digits. -/
def isDigits (cs : List Char) : Bool :=
  !cs.isEmpty && cs.all (fun c => c.isDigit)

/-- Python `int(s)`: optional surrounding whitespace, optional sign,
then decimal digits; `none` models a raised `ValueError`. -/
def pyInt (s : String) : Option ℤ :=
  match trimChars s.data with
  | '-' :: rest => if isDigits rest then some (-(digitsVal rest : ℤ)) else none
  | '+' :: rest => if isDigits rest then some ((digitsVal rest : ℤ)) else none
  | cs => if isDigits cs then some ((digitsVal cs : ℤ)) else none

/-- Unsigned part of Python `float(s)` on a plain decimal literal:
digits, optionally with a decimal point; at least one digit overall.
Returns the integer part, the fraction digits' value and their count. -/
def parseUnsignedFloat (cs : List Char) : Option (ℕ × ℕ × ℕ) :=
  match splitOnChar '.' cs with
  | [ip] => if isDigits ip then some (digitsVal ip, 0, 0) else none
  | [ip, fp] =>
    if (ip.all (fun c => c.isDigit)) && (fp.all (fun c => c.isDigit))
        && (!ip.isEmpty || !fp.isEmpty) then
      some (digitsVal ip, digitsVal fp, fp.length)
    else none
  | _ => none

/-- Discrete result of Python `float(s)`: sign and unsigned parts. -/
def pyFloatParts (s : String) : Option (Bool × ℕ × ℕ × ℕ) :=
  match trimChars s.data with
  | '-' :: rest => (parseUnsignedFloat rest).map (fun p => (true, p))
  | '+' :: rest => (parseUnsignedFloat rest).map (fun p => (false, p))
  | cs => (parseUnsignedFloat cs).map (fun p => (false, p))

/-- The rational value of a parsed decimal literal. -/
def qOfParts : Bool × ℕ × ℕ × ℕ → ℚ
  | (neg, ip, fp, k) =>
    (if neg then (-1 : ℚ) else 1) * ((ip : ℚ) + (fp : ℚ) / ((10 : ℚ) ^ k))

/-- Python `float(s)` on the plain decimal literals these scripts parse
(optional whitespace, optional sign, digits with optional fraction);
`none` models a raised `ValueError`. -/
def pyFloat (s : String) : Option ℚ :=
  (pyFloatParts s).map qOfParts

/-- Python 2 `map(float, xs)`: eager, raising on the first bad entry. -/
def pyMapFloat : List String → Option (List ℚ)
  | [] => some []
  | s :: rest =>
    match pyFloat s with
    | none => none
    | some v =>
      match pyMapFloat rest with
      | none => none
      | some vs => some (v :: vs)

/-- Floor of a rational as an integer, computably. -/
def ratFloor (q : ℚ) : ℤ := Int.fdiv q.num (q.den : ℤ)

/-- Python 2 `round` to an integer: round half away from zero. -/
def roundHalfAway (q : ℚ) : ℤ :=
  if 0 ≤ q then ratFloor (q + 1/2) else -(ratFloor (-q + 1/2))

/-- Python 2 `round(x, 1)` on the rational model of a float. -/
def pyRound1 (q : ℚ) : ℚ := ((roundHalfAway (q * 10) : ℚ)) / 10

example : pySplit "a\nb\nlines=3" '\n' = ["a", "b", "lines=3"] := by decide
example : pyInt " 42" = some 42 := by decide
example : pyInt "x2" = none := by decide
example : pyFloat "" = none := by decide
example : pyFloat "10.25" = some (41/4) := by
  rw [pyFloat, show pyFloatParts "10.25" = some (false, 10, 25, 2) from by decide]
  norm_num [qOfParts]
example : pyFloat "-1" = some (-1) := by
  rw [pyFloat, show pyFloatParts "-1" = some (true, 1, 0, 0) from by decide]
  norm_num [qOfParts]
example : pyRound1 (1/20) = 1/10 := by
  norm_num [pyRound1, roundHalfAway, ratFloor]

/-- External GRASS commands the scripts invoke, as recorded in a trace.
Only the arguments the claims refer to (map names, operator, the circle
flag of `v.buffer`) are kept. -/
inductive Cmd where
  | extract (input output whereClause : String) : Cmd
  | copy (src dst : String) : Cmd
  | buffer (circle : Bool) (distance input output : String) : Cmd
  | overlay (ainput binput operator output : String) : Cmd
  | remove (names : List String) : Cmd
  | removePattern (pattern : String) : Cmd
  | patch (inputs : List String) (output : String) : Cmd
deriving DecidableEq, Repr

/-- Result of running a modelled procedure: the trace of external commands
it issued, and either its Python return value or the exception it raised. -/
abbrev PyRun (α : Type) := List Cmd × Except PyErr α

/-- Text the external commands print for one vector map, as read by
`length`: the `v.info -t` output and the `v.to.db option=length` table. -/
structure LengthOutputs where
  vinfo : String
  vtodb : String
deriving DecidableEq, Repr

/-- The feature count both scripts read from `v.info -t` output:
`int(out.split("\n")[2].split("=")[1])`.  `v.osm.precomp` line 210,
`v.osm.preproc` lines 84–85 and 141–143. -/
def featCount (vinfo : String) : Except PyErr ℤ :=
  match (pySplit vinfo '\n').get? 2 with
  | none => .error .indexError
  | some ln =>
    match (pySplit ln '=').get? 1 with
    | none => .error .indexError
    | some fld =>
      match pyInt fld with
      | none => .error .valueError
      | some feat => .ok feat

/-- The summation loop of `length`: `for item in l_data[1:-1]:
s_data += float(item.split("|")[1])`. -/
def sumLengths (acc : ℚ) : List String → Except PyErr ℚ
  | [] => .ok acc
  | item :: rest =>
    match (pySplit item '|').get? 1 with
    | none => .error .indexError
    | some fld =>
      match pyFloat fld with
      | none => .error .valueError
      | some v => sumLengths (acc + v) rest

/-- The `length` function, identical in both scripts (`v.osm.precomp`
lines 209–219, `v.osm.preproc` lines 83–95): read the feature count from
`v.info -t`; if positive, sum the second pipe-delimited field of every
line of the `v.to.db` length table except the first and the last;
otherwise return 0 without reading the length table. -/
def length (o : LengthOutputs) : Except PyErr ℚ :=
  match featCount o.vinfo with
  | .error e => .error e
  | .ok feat =>
    if feat > 0 then
      sumLengths 0 (((pySplit o.vtodb '\n').drop 1).dropLast)
    else .ok 0

/-- Text the external commands print for one `GetCoeff` call: the
`v.to.db option=start` and `option=end` tables. -/
structure CoeffOutputs where
  startOut : String
  endOut : String
deriving DecidableEq, Repr

/-- Body of the `try` block of `GetCoeff` (`v.osm.preproc` lines
101–113), given the already-extracted start-coordinate line: parse the
start fields, read and parse the end line; any failure, and a vertical
line (`x_end = x_start`), yield the sentinel `10^9`. -/
def getCoeffTry (coord_start : String) (endOut : String) : ℚ :=
  match ((pySplit coord_start '|').get? 1).bind pyFloat with
  | none => 10 ^ 9
  | some x_start =>
    match ((pySplit coord_start '|').get? 2).bind pyFloat with
    | none => 10 ^ 9
    | some y_start =>
      match (pySplit endOut '\n').get? 1 with
      | none => 10 ^ 9
      | some coord_end =>
        match ((pySplit coord_end '|').get? 1).bind pyFloat with
        | none => 10 ^ 9
        | some x_end =>
          match ((pySplit coord_end '|').get? 2).bind pyFloat with
          | none => 10 ^ 9
          | some y_end =>
            if x_end - x_start ≠ 0 then (y_end - y_start) / (x_end - x_start)
            else 10 ^ 9

/-- `GetCoeff` (`v.osm.preproc` lines 98–114).  The extraction of the
second line of the start-coordinate table (lines 99–100) happens *before*
the `try` block, so its IndexError propagates; everything from line 101
on is inside the `try` and falls back to the sentinel `10^9`. -/
def GetCoeff (o : CoeffOutputs) : Except PyErr ℚ :=
  match (pySplit o.startOut '\n').get? 1 with
  | none => .error .indexError
  | some coord_start => .ok (getCoeffTry coord_start o.endOut)

/-- The transcendental functions and the float-to-string rendering the
scripts use, kept as parameters of the model: `math.atan`,
`math.degrees`, and the `str()` conversion applied by `"%s" % x`. -/
structure MathOps where
  atanQ : ℚ → ℚ
  degreesQ : ℚ → ℚ
  fmt : ℚ → String

/-- The angle-difference expression of `v.osm.preproc` line 162:
`math.degrees(abs(math.atan((m_ref - m_osm) / (1 + m_ref * m_osm))))`. -/
def newAngle (M : MathOps) (m_ref m_osm : ℚ) : ℚ :=
  M.degreesQ |M.atanQ ((m_ref - m_osm) / (1 + m_ref * m_osm))|

example : featCount "a\nb\nlines=0" = .ok 0 := by decide
example : length ⟨"a\nb\nlines=0", "irrelevant"⟩ = .ok 0 := by decide
example : GetCoeff ⟨"", ""⟩ = .error .indexError := by decide

/-- Oracle for one `AngulatComparison` call (`v.osm.preproc` lines
117–180): the text printed by the external commands it reads. -/
structure AngWorld where
  /-- `v.info -t` output for the overlay map `newodata` (lines 141–142). -/
  vinfo_odata : String
  /-- `v.db.select columns=cat -c` output for `newodata` (lines 148–150). -/
  dbsel_cats : String
  /-- `v.to.db start`/`end` tables for the reference feature map
  `newfdata` (line 151). -/
  coeff_fdata : CoeffOutputs
  /-- `v.to.db start`/`end` tables for the extracted subfeature map,
  indexed by the subfeature's `cat` string (line 159). -/
  coeff_sub : String → CoeffOutputs

/-- Body of the subfeature loop of `AngulatComparison` (`v.osm.preproc`
lines 154–177) for one subfeature `sf`, given the loop state `z`:
extract the subfeature, get its angular coefficient, compute the angle
difference (raising `ZeroDivisionError` when `1 + m_ref * m_osm = 0`),
and either patch the subfeature onto the accumulated patch map (removing
the previous patch map and the subfeature map, and setting `z` to `sf`)
or remove the subfeature map alone. -/
def angSubStep (W : AngWorld) (M : MathOps) (processid f : String)
    (angle_thres m_ref : ℚ) (z sf : String) : PyRun String :=
  let odata := "odata_" ++ processid
  let patchBase := "patch_" ++ processid
  let newodata := odata ++ "_" ++ f
  let newnewodata := newodata ++ "_" ++ sf
  let extractCmd := Cmd.extract newodata newnewodata ("cat=" ++ sf)
  match GetCoeff (W.coeff_sub sf) with
  | .error e => ([extractCmd], .error e)
  | .ok m_osm =>
    if 1 + m_ref * m_osm = 0 then ([extractCmd], .error .zeroDivision)
    else
      if newAngle M m_ref m_osm ≤ angle_thres then
        let newpatch := patchBase ++ "_" ++ f ++ "_" ++ z
        let outpatch := patchBase ++ "_" ++ f ++ "_" ++ sf
        ([extractCmd, Cmd.patch [newpatch, newnewodata] outpatch,
          Cmd.remove [newpatch, newnewodata]], .ok sf)
      else
        ([extractCmd, Cmd.remove [newnewodata]], .ok z)

/-- The subfeature loop of `AngulatComparison` (lines 154–177), folding
`angSubStep` over the subfeature list and threading `z`. -/
def angLoop (W : AngWorld) (M : MathOps) (processid f : String)
    (angle_thres m_ref : ℚ) (z : String) : List String → PyRun String
  | [] => ([], .ok z)
  | sf :: rest =>
    match angSubStep W M processid f angle_thres m_ref z sf with
    | (tr, .error e) => (tr, .error e)
    | (tr, .ok z') =>
      match angLoop W M processid f angle_thres m_ref z' rest with
      | (tr2, r) => (tr ++ tr2, r)

/-- `AngulatComparison` (`v.osm.preproc` lines 117–180): extract the
reference feature `f`, copy the empty seed patch map, buffer the feature
(with the `c` flag when `f` is in `list_lines`), overlay the OSM dataset
with the buffer; if the overlay has no lines remove the three temporary
maps and return 0, otherwise run the subfeature loop, remove the three
temporary maps and return 0. -/
def AngulatComparison (W : AngWorld) (M : MathOps)
    (f processid ref osm bf : String) (list_lines : List String)
    (angle_thres : ℚ) : PyRun ℤ :=
  let fdata := "fdata_" ++ processid
  let fbuffer := "fbuffer_" ++ processid
  let odata := "odata_" ++ processid
  let patchBase := "patch_" ++ processid
  let newfdata := fdata ++ "_" ++ f
  let newbuffer := fbuffer ++ "_" ++ f
  let newodata := odata ++ "_" ++ f
  let pre : List Cmd :=
    [Cmd.extract ref newfdata ("cat=" ++ f),
     Cmd.copy ("patch_" ++ processid ++ "_0_0") (patchBase ++ "_" ++ f ++ "_0"),
     Cmd.buffer (list_lines.contains f) bf newfdata newbuffer,
     Cmd.overlay osm newbuffer "and" newodata]
  match featCount W.vinfo_odata with
  | .error e => (pre, .error e)
  | .ok nlines =>
    if nlines = 0 then
      (pre ++ [Cmd.remove [newfdata, newbuffer, newodata]], .ok 0)
    else
      let list_subfeature := (pySplit W.dbsel_cats '\n').dropLast
      match GetCoeff W.coeff_fdata with
      | .error e => (pre, .error e)
      | .ok m_ref =>
        match angLoop W M processid f angle_thres m_ref "0" list_subfeature with
        | (tr, .error e) => (pre ++ tr, .error e)
        | (tr, .ok _) =>
          (pre ++ tr ++ [Cmd.remove [newfdata, newbuffer, newodata]], .ok 0)

/-- The list comprehension `[p for p in processed if p]` of
`v.osm.preproc` line 312, with Python integer truthiness. -/
def truthyMarkers (processed : List ℤ) : List ℤ :=
  processed.filter (fun p => p ≠ 0)

/-- Oracle for the `main` prologue of `v.osm.preproc`: whether
`grass.find_file` resolves a name, the timestamp-derived process id, and
the `length` inputs for each map name. -/
structure PreprocWorld where
  findFile : String → Bool
  processid : String
  lenOut : String → LengthOutputs

/-- Prologue of `main` in `v.osm.preproc` (lines 193–233): the two
existence checks, then the two `length` calls, then the zero-length
aborts, each of which removes the temporary maps matching the process id
and raises a fatal error.  On success it returns `(l_osm, l_ref)`. -/
def mainPreprocPrologue (W : PreprocWorld) (osm ref : String) :
    PyRun (ℚ × ℚ) :=
  if W.findFile osm = false then
    ([], .error (.fatal ("Vector map <" ++ osm ++ "> not found")))
  else if W.findFile ref = false then
    ([], .error (.fatal ("Vector map <" ++ ref ++ "> not found")))
  else
    match length (W.lenOut osm) with
    | .error e => ([], .error e)
    | .ok l_osm =>
      match length (W.lenOut ref) with
      | .error e => ([], .error e)
      | .ok l_ref =>
        if l_ref = 0 then
          ([Cmd.removePattern W.processid],
           .error (.fatal "No reference data for comparison"))
        else if l_osm = 0 then
          ([Cmd.removePattern W.processid],
           .error (.fatal "No OSM data for comparison"))
        else ([], .ok (l_osm, l_ref))

/-- Oracle for a run of `v.osm.precomp` `main`: name resolution, the
`length` inputs per map name, the main timestamp-derived process id, and
the process id each successive `GetStat` call derives from the clock. -/
structure PrecompWorld where
  findFile : String → Bool
  lenOut : String → LengthOutputs
  processid : String
  statPid : ℕ → String

/-- `GetStat` (`v.osm.precomp` lines 67–93): buffer the OSM dataset and
overlay REF in/out of it, then buffer REF and overlay OSM in/out of it,
measuring the four lengths; finally remove the temporary maps matching
this call's process id. -/
def GetStat (W : PrecompWorld) (M : MathOps) (pid osm ref : String)
    (buff : ℚ) : PyRun (ℚ × ℚ × ℚ × ℚ) :=
  let ref_buffer := "ref_buffer_" ++ pid
  let osm_buffer := "osm_buffer_" ++ pid
  let ref_in := "ref_in_" ++ pid
  let ref_out := "ref_out_" ++ pid
  let osm_in := "osm_in_" ++ pid
  let osm_out := "osm_out_" ++ pid
  let tr1 : List Cmd :=
    [Cmd.buffer false (M.fmt buff) osm osm_buffer,
     Cmd.overlay ref osm_buffer "and" ref_in,
     Cmd.overlay ref osm_buffer "not" ref_out]
  match length (W.lenOut ref_in) with
  | .error e => (tr1, .error e)
  | .ok s_ref_in =>
    match length (W.lenOut ref_out) with
    | .error e => (tr1, .error e)
    | .ok s_ref_out =>
      let tr2 := tr1 ++
        [Cmd.buffer false (M.fmt buff) ref ref_buffer,
         Cmd.overlay osm ref_buffer "and" osm_in,
         Cmd.overlay osm ref_buffer "not" osm_out]
      match length (W.lenOut osm_in) with
      | .error e => (tr2, .error e)
      | .ok s_osm_in =>
        match length (W.lenOut osm_out) with
        | .error e => (tr2, .error e)
        | .ok s_osm_out =>
          (tr2 ++ [Cmd.removePattern pid],
           .ok (s_ref_in, s_ref_out, s_osm_in, s_osm_out))

/-- The eight statistics lists `main` accumulates
(`v.osm.precomp` lines 280–287). -/
structure StatLists where
  l_osm_out : List ℚ
  l_var_osm_out : List ℚ
  l_ref_out : List ℚ
  l_var_ref_out : List ℚ
  l_osm_in : List ℚ
  l_var_osm_in : List ℚ
  l_ref_in : List ℚ
  l_var_ref_in : List ℚ
deriving DecidableEq, Repr

/-- The empty statistics lists. -/
def emptyStats : StatLists := ⟨[], [], [], [], [], [], [], []⟩

/-- The buffer loop of `main` (`v.osm.precomp` lines 289–298): for each
buffer value call `GetStat` and append the rounded lengths and rounded
percentages to the eight lists.  The call index selects the process id
the `GetStat` call derives from the clock. -/
def statsLoop (W : PrecompWorld) (M : MathOps) (osm ref : String)
    (s_osm s_ref : ℚ) : ℕ → StatLists → List ℚ → PyRun StatLists
  | _, L, [] => ([], .ok L)
  | i, L, b :: rest =>
    match GetStat W M (W.statPid i) osm ref b with
    | (tr, .error e) => (tr, .error e)
    | (tr, .ok (s_ref_in, s_ref_out, s_osm_in, s_osm_out)) =>
      let L' : StatLists :=
        { l_osm_in := L.l_osm_in ++ [pyRound1 s_osm_in]
          l_var_osm_in := L.l_var_osm_in ++ [pyRound1 (s_osm_in / s_osm * 100)]
          l_ref_in := L.l_ref_in ++ [pyRound1 s_ref_in]
          l_var_ref_in := L.l_var_ref_in ++ [pyRound1 (s_ref_in / s_ref * 100)]
          l_osm_out := L.l_osm_out ++ [pyRound1 s_osm_out]
          l_var_osm_out := L.l_var_osm_out ++ [pyRound1 (s_osm_out / s_osm * 100)]
          l_ref_out := L.l_ref_out ++ [pyRound1 s_ref_out]
          l_var_ref_out := L.l_var_ref_out ++ [pyRound1 (s_ref_out / s_ref * 100)] }
      match statsLoop W M osm ref s_osm s_ref (i + 1) L' rest with
      | (tr2, r) => (tr ++ tr2, r)

/-- Concatenation of a list of strings. -/
def concatRows : List String → String
  | [] => ""
  | r :: rs => r ++ concatRows rs

/-- The header row written at `v.osm.precomp` line 306.  No `%`
formatting is applied to that `fil.write` argument, so the `%%` escapes
are written literally. -/
def reportHeader : String :=
  "BUFFER(m)|OSM_IN(m)|OSM_IN(%%)|OSM_OUT(m)|OSM_OUT(%%)|REF_IN(m)|REF_IN(%%)|REF_OUT(m)|REF_OUT(%%)\n"

/-- The first five lines of the report (`v.osm.precomp` lines 302–306):
REF length, OSM length, REF−OSM difference with percentage, a blank
line, and the header row. -/
def reportHead (M : MathOps) (s_ref s_osm diff diff_p : ℚ) : String :=
  "REF length: " ++ M.fmt (pyRound1 s_ref) ++ " m\n" ++
  "OSM length: " ++ M.fmt (pyRound1 s_osm) ++ " m\n" ++
  "REF-OSM difference: " ++ M.fmt (pyRound1 diff) ++ " m (" ++
    M.fmt (pyRound1 diff_p) ++ "%)\n" ++
  "\n" ++ reportHeader

/-- The statistics rows written by the loop at `v.osm.precomp` lines
307–308: one `%s|…|%s` row per index into the buffer list, reading the
eight lists at that index. -/
def rowsText (M : MathOps) (list_buff : List ℚ) (L : StatLists) : String :=
  concatRows ((List.range list_buff.length).map (fun item =>
    M.fmt (list_buff.getD item 0) ++ "|" ++
    M.fmt (L.l_osm_in.getD item 0) ++ "|" ++
    M.fmt (L.l_var_osm_in.getD item 0) ++ "|" ++
    M.fmt (L.l_osm_out.getD item 0) ++ "|" ++
    M.fmt (L.l_var_osm_out.getD item 0) ++ "|" ++
    M.fmt (L.l_ref_in.getD item 0) ++ "|" ++
    M.fmt (L.l_var_ref_in.getD item 0) ++ "|" ++
    M.fmt (L.l_ref_out.getD item 0) ++ "|" ++
    M.fmt (L.l_var_ref_out.getD item 0) ++ "\n"))

/-- The dataset name used after the optional clipping step
(`v.osm.precomp` lines 270–274): the roi overlay output when a clipping
mask was given, the original name otherwise. -/
def refAfterRoi (W : PrecompWorld) (roi ref : String) : String :=
  if 0 < roi.length then "ref_roi_" ++ W.processid else ref

/-- OSM counterpart of `refAfterRoi`. -/
def osmAfterRoi (W : PrecompWorld) (roi osm : String) : String :=
  if 0 < roi.length then "osm_roi_" ++ W.processid else osm

/-- `main` of `v.osm.precomp` (lines 229–312) up to the point where the
report file has been written: existence checks, the two dataset lengths,
the zero-length branches (which read the not-yet-assigned local
`processid`, raising `UnboundLocalError`), the difference, the optional
roi clipping, parsing the buffer list, the buffer loop, the report text,
and the final removal of temporary maps.  The returned string is the
content written to the output file. -/
def mainPrecomp (W : PrecompWorld) (M : MathOps)
    (osm ref roi buffers : String) : PyRun String :=
  if W.findFile osm = false then
    ([], .error (.fatal ("Vector map <" ++ osm ++ "> not found")))
  else if W.findFile ref = false then
    ([], .error (.fatal ("Vector map <" ++ ref ++ "> not found")))
  else if 0 < roi.length ∧ W.findFile roi = false then
    ([], .error (.fatal ("Vector map <" ++ roi ++ "> not found")))
  else
    match length (W.lenOut ref) with
    | .error e => ([], .error e)
    | .ok s_ref =>
      match length (W.lenOut osm) with
      | .error e => ([], .error e)
      | .ok s_osm =>
        if s_ref = 0 then ([], .error (.unboundLocal "processid"))
        else if s_osm = 0 then ([], .error (.unboundLocal "processid"))
        else
          let diff := s_ref - s_osm
          let diff_p := diff / s_ref * 100
          let pid := W.processid
          let ref2 := refAfterRoi W roi ref
          let osm2 := osmAfterRoi W roi osm
          let trRoi : List Cmd :=
            if 0 < roi.length then
              [Cmd.overlay ref roi "and" ("ref_roi_" ++ pid),
               Cmd.overlay osm roi "and" ("osm_roi_" ++ pid)]
            else []
          match pyMapFloat (pySplit buffers ',') with
          | none => (trRoi, .error .valueError)
          | some list_buff =>
            match statsLoop W M osm2 ref2 s_osm s_ref 0 emptyStats list_buff with
            | (trL, .error e) => (trRoi ++ trL, .error e)
            | (trL, .ok L) =>
              (trRoi ++ trL ++ [Cmd.removePattern pid],
               .ok (reportHead M s_ref s_osm diff diff_p ++
                    rowsText M list_buff L))

/-- One statistics row as the specification describes it, from the raw
`GetStat` quadruple: the buffer value as given, then the OSM in/out and
REF in/out lengths and percentages, the eight measured values rounded to
one decimal. -/
def expectedRow (M : MathOps) (s_osm s_ref b : ℚ)
    (st : ℚ × ℚ × ℚ × ℚ) : String :=
  M.fmt b ++ "|" ++
  M.fmt (pyRound1 st.2.2.1) ++ "|" ++
  M.fmt (pyRound1 (st.2.2.1 / s_osm * 100)) ++ "|" ++
  M.fmt (pyRound1 st.2.2.2) ++ "|" ++
  M.fmt (pyRound1 (st.2.2.2 / s_osm * 100)) ++ "|" ++
  M.fmt (pyRound1 st.1) ++ "|" ++
  M.fmt (pyRound1 (st.1 / s_ref * 100)) ++ "|" ++
  M.fmt (pyRound1 st.2.1) ++ "|" ++
  M.fmt (pyRound1 (st.2.1 / s_ref * 100)) ++ "\n"

/-- The statistics rows as the specification describes them: one row per
buffer value, in the order given, with the `GetStat` quadruple of each
call index. -/
def expectedRows (M : MathOps) (g : ℕ → ℚ → ℚ × ℚ × ℚ × ℚ)
    (s_osm s_ref : ℚ) : ℕ → List ℚ → List String
  | _, [] => []
  | i, b :: rest =>
    expectedRow M s_osm s_ref b (g i b) ::
      expectedRows M g s_osm s_ref (i + 1) rest

/-- Fieldwise append of statistics lists. -/
def statsAppend (A B : StatLists) : StatLists :=
  ⟨A.l_osm_out ++ B.l_osm_out, A.l_var_osm_out ++ B.l_var_osm_out,
   A.l_ref_out ++ B.l_ref_out, A.l_var_ref_out ++ B.l_var_ref_out,
   A.l_osm_in ++ B.l_osm_in, A.l_var_osm_in ++ B.l_var_osm_in,
   A.l_ref_in ++ B.l_ref_in, A.l_var_ref_in ++ B.l_var_ref_in⟩

/-- The statistics lists the buffer loop produces, written as a direct
recursion over the buffer values. -/
def statsOf (g : ℕ → ℚ → ℚ × ℚ × ℚ × ℚ) (s_osm s_ref : ℚ) :
    ℕ → List ℚ → StatLists
  | _, [] => emptyStats
  | i, b :: rest =>
    let st := g i b
    let R := statsOf g s_osm s_ref (i + 1) rest
    ⟨pyRound1 st.2.2.2 :: R.l_osm_out,
     pyRound1 (st.2.2.2 / s_osm * 100) :: R.l_var_osm_out,
     pyRound1 st.2.1 :: R.l_ref_out,
     pyRound1 (st.2.1 / s_ref * 100) :: R.l_var_ref_out,
     pyRound1 st.2.2.1 :: R.l_osm_in,
     pyRound1 (st.2.2.1 / s_osm * 100) :: R.l_var_osm_in,
     pyRound1 st.1 :: R.l_ref_in,
     pyRound1 (st.1 / s_ref * 100) :: R.l_var_ref_in⟩

/-- The parsed second pipe-delimited field of every row, as rationals;
`none` when any row fails to parse. -/
def parseRows : List String → Option (List ℚ)
  | [] => some []
  | item :: rest =>
    match ((pySplit item '|').get? 1).bind pyFloat with
    | none => none
    | some v =>
      match parseRows rest with
      | none => none
      | some vs => some (v :: vs)

/-- The statistics rows as claim C3 reads them.  Modelled from the spec:
"every numeric value rounded to one decimal" — the buffer value is also
rounded, which is what the code does *not* do. -/
def claimRows (M : MathOps) (g : ℕ → ℚ → ℚ × ℚ × ℚ × ℚ)
    (s_osm s_ref : ℚ) : ℕ → List ℚ → List String
  | _, [] => []
  | i, b :: rest =>
    expectedRow M s_osm s_ref (pyRound1 b) (g i b) ::
      claimRows M g s_osm s_ref (i + 1) rest

/-- Decimal digits of a natural number, as a string. -/
def natStr (n : ℕ) : String := ⟨Nat.toDigits 10 n⟩

/-- Decimal rendering of an integer. -/
def intStr (i : ℤ) : String :=
  if i < 0 then "-" ++ natStr i.natAbs else natStr i.natAbs

/-- A concrete injective-enough stand-in for `str()` used only to
instantiate witnesses: the value scaled by 1000 and floored. -/
def fmtQ (q : ℚ) : String := intStr (ratFloor (q * 1000))

/-- Concrete `MathOps` for witnesses: `atan` and `degrees` as the
identity, `fmtQ` as the renderer. -/
def M0 : MathOps := ⟨fun q => q, fun q => q, fmtQ⟩

/-- Length oracle text describing one 10-metre feature. -/
def len10 : LengthOutputs := ⟨"a\nb\nlines=1", "cat|length\n1|10\nend"⟩

/-- Length oracle text describing an empty map. -/
def len0 : LengthOutputs := ⟨"a\nb\nlines=0", ""⟩

/-- Concrete precomp world: every map resolves and measures 10 m. -/
def Wok : PrecompWorld := ⟨fun _ => true, fun _ => len10, "pid", fun _ => "sp"⟩

/-- Concrete precomp world whose maps all measure zero. -/
def WprecompZero : PrecompWorld := ⟨fun _ => true, fun _ => len0, "pid", fun _ => "sp"⟩

/-- Concrete preproc world whose maps all measure zero. -/
def WlenZero : PreprocWorld := ⟨fun _ => true, "pid", fun _ => len0⟩

/-- Concrete preproc world where only `"r"` has nonzero length. -/
def WosmZero : PreprocWorld :=
  ⟨fun _ => true, "pid", fun n => if n = "r" then len10 else len0⟩

/-- Concrete preproc world where no map resolves. -/
def WnoFile : PreprocWorld := ⟨fun _ => false, "pid", fun _ => len10⟩

/-- Concrete precomp world where no map resolves. -/
def WnoFileP : PrecompWorld := ⟨fun _ => false, fun _ => len10, "pid", fun _ => "sp"⟩

/-- Concrete precomp world where everything but `"m"` resolves. -/
def WnoRoi : PrecompWorld :=
  ⟨fun n => !(n = "m" : Bool), fun _ => len10, "pid", fun _ => "sp"⟩

/-- Coordinate tables of a segment from (0,0) to (1,1): slope 1. -/
def coeffSlope1 : CoeffOutputs := ⟨"h\n1|0|0", "h\n1|1|1"⟩

/-- Coordinate tables of a segment from (0,0) to (2,1): slope 1/2. -/
def coeffSlopeHalf : CoeffOutputs := ⟨"h\n1|0|0", "h\n1|2|1"⟩

/-- Coordinate tables of a segment from (0,0) to (1,-1): slope -1. -/
def coeffSlopeNeg1 : CoeffOutputs := ⟨"h\n1|0|0", "h\n1|1|-1"⟩

/-- Concrete `AngWorld`: one overlay line, one subfeature of slope 1/2,
reference feature of slope 1. -/
def Wpatch : AngWorld :=
  ⟨"a\nb\nlines=1", "5\n", coeffSlope1, fun _ => coeffSlopeHalf⟩

/-- Concrete `AngWorld` whose overlay contains zero lines. -/
def Wzero : AngWorld := ⟨"a\nb\nlines=0", "", coeffSlope1, fun _ => coeffSlope1⟩

/-- Concrete `AngWorld` with perpendicular slopes 1 and -1. -/
def Wperp : AngWorld :=
  ⟨"a\nb\nlines=1", "5\n", coeffSlope1, fun _ => coeffSlopeNeg1⟩

lemma statsAppend_empty (L : StatLists) : statsAppend L emptyStats = L := by
  simp [statsAppend, emptyStats]

lemma emptyStats_append (L : StatLists) : statsAppend emptyStats L = L := by
  simp [statsAppend, emptyStats]

lemma statsLoop_ok (W : PrecompWorld) (M : MathOps) (osm ref : String)
    (s_osm s_ref : ℚ) (g : ℕ → ℚ → ℚ × ℚ × ℚ × ℚ)
    (hstat : ∀ j b, (GetStat W M (W.statPid j) osm ref b).2 = .ok (g j b)) :
    ∀ (bs : List ℚ) (i : ℕ) (L : StatLists), ∃ tr,
      statsLoop W M osm ref s_osm s_ref i L bs =
        (tr, .ok (statsAppend L (statsOf g s_osm s_ref i bs))) := by
  intro bs
  induction bs with
  | nil =>
    intro i L
    exact ⟨[], by simp [statsLoop, statsOf, statsAppend_empty]⟩
  | cons b rest ih =>
    intro i L
    rcases hG : GetStat W M (W.statPid i) osm ref b with ⟨tr, r⟩
    have hr : r = .ok (g i b) := by
      have := hstat i b
      rw [hG] at this
      exact this
    subst hr
    rcases hgib : g i b with ⟨r1, r2, r3, r4⟩
    obtain ⟨tr2, h2⟩ := ih (i + 1)
      ⟨L.l_osm_out ++ [pyRound1 r4], L.l_var_osm_out ++ [pyRound1 (r4 / s_osm * 100)],
       L.l_ref_out ++ [pyRound1 r2], L.l_var_ref_out ++ [pyRound1 (r2 / s_ref * 100)],
       L.l_osm_in ++ [pyRound1 r3], L.l_var_osm_in ++ [pyRound1 (r3 / s_osm * 100)],
       L.l_ref_in ++ [pyRound1 r1], L.l_var_ref_in ++ [pyRound1 (r1 / s_ref * 100)]⟩
    refine ⟨tr ++ tr2, ?_⟩
    simp only [statsLoop, hG, hgib, h2]
    simp [statsOf, statsAppend, hgib, List.append_assoc]

lemma rowsText_statsOf (M : MathOps) (g : ℕ → ℚ → ℚ × ℚ × ℚ × ℚ)
    (s_osm s_ref : ℚ) :
    ∀ (bs : List ℚ) (i : ℕ),
      rowsText M bs (statsOf g s_osm s_ref i bs) =
        concatRows (expectedRows M g s_osm s_ref i bs) := by
  intro bs
  induction bs with
  | nil => intro i; simp [rowsText, expectedRows, concatRows]
  | cons b rest ih =>
    intro i
    have hmap := ih (i + 1)
    simp only [rowsText, statsOf, List.length_cons, List.range_succ_eq_map,
      List.map_cons, List.map_map, Function.comp_def, List.getElem?_cons_succ,
      List.getD_cons_zero, List.getD_cons_succ, List.getD,
      List.get?_cons_zero, List.get?_cons_succ, Option.getD_some,
      concatRows, expectedRows, expectedRow] at hmap ⊢
    rw [hmap]

lemma mainPrecomp_file (W : PrecompWorld) (M : MathOps)
    (osm ref roi buffers : String) (s_ref s_osm : ℚ) (bs : List ℚ)
    (g : ℕ → ℚ → ℚ × ℚ × ℚ × ℚ)
    (hosm : W.findFile osm = true) (href : W.findFile ref = true)
    (hroi : 0 < roi.length → W.findFile roi = true)
    (hlref : length (W.lenOut ref) = .ok s_ref)
    (hlosm : length (W.lenOut osm) = .ok s_osm)
    (hs_ref : s_ref ≠ 0) (hs_osm : s_osm ≠ 0)
    (hb : pyMapFloat (pySplit buffers ',') = some bs)
    (hstat : ∀ i b, (GetStat W M (W.statPid i) (osmAfterRoi W roi osm)
      (refAfterRoi W roi ref) b).2 = .ok (g i b)) :
    (mainPrecomp W M osm ref roi buffers).2 =
      .ok (reportHead M s_ref s_osm (s_ref - s_osm)
             ((s_ref - s_osm) / s_ref * 100) ++
           concatRows (expectedRows M g s_osm s_ref 0 bs)) := by
  have h3 : ¬(0 < roi.length ∧ W.findFile roi = false) := by
    rintro ⟨h1, h2⟩
    rw [hroi h1] at h2
    simp at h2
  obtain ⟨tr, hloop⟩ := statsLoop_ok W M (osmAfterRoi W roi osm)
    (refAfterRoi W roi ref) s_osm s_ref g hstat bs 0 emptyStats
  rw [emptyStats_append] at hloop
  simp only [mainPrecomp, hosm, href, h3, hlref, hlosm, hs_ref, hs_osm, hb,
    hloop, Bool.true_eq_false, if_false, if_neg, ite_false]
  simp [rowsText_statsOf]

lemma pyFloat_nat (s : String) (n : ℕ)
    (h : pyFloatParts s = some (false, n, 0, 0)) : pyFloat s = some (n : ℚ) := by
  rw [pyFloat, h]
  norm_num [qOfParts]

lemma pyFloat_neg_nat (s : String) (n : ℕ)
    (h : pyFloatParts s = some (true, n, 0, 0)) : pyFloat s = some (-(n : ℚ)) := by
  rw [pyFloat, h]
  norm_num [qOfParts]

lemma GetCoeff_slope (o : CoeffOutputs) (ls le : String) (xs ys xe ye : ℚ)
    (h1 : (pySplit o.startOut '\n').get? 1 = some ls)
    (h2 : ((pySplit ls '|').get? 1).bind pyFloat = some xs)
    (h3 : ((pySplit ls '|').get? 2).bind pyFloat = some ys)
    (h4 : (pySplit o.endOut '\n').get? 1 = some le)
    (h5 : ((pySplit le '|').get? 1).bind pyFloat = some xe)
    (h6 : ((pySplit le '|').get? 2).bind pyFloat = some ye)
    (h7 : xe - xs ≠ 0) :
    GetCoeff o = .ok ((ye - ys) / (xe - xs)) := by
  simp only [List.get?_eq_getElem?] at h1 h2 h3 h4 h5 h6
  simp [GetCoeff, getCoeffTry, h1, h2, h3, h4, h5, h6, h7]

lemma GetCoeff_vertical (o : CoeffOutputs) (ls le : String) (xs ys xe ye : ℚ)
    (h1 : (pySplit o.startOut '\n').get? 1 = some ls)
    (h2 : ((pySplit ls '|').get? 1).bind pyFloat = some xs)
    (h3 : ((pySplit ls '|').get? 2).bind pyFloat = some ys)
    (h4 : (pySplit o.endOut '\n').get? 1 = some le)
    (h5 : ((pySplit le '|').get? 1).bind pyFloat = some xe)
    (h6 : ((pySplit le '|').get? 2).bind pyFloat = some ye)
    (h7 : xe - xs = 0) :
    GetCoeff o = .ok (10 ^ 9) := by
  simp only [List.get?_eq_getElem?] at h1 h2 h3 h4 h5 h6
  simp [GetCoeff, getCoeffTry, h1, h2, h3, h4, h5, h6, h7]

lemma sumLengths_eq_sum :
    ∀ (rows : List String) (acc : ℚ) (vs : List ℚ),
      parseRows rows = some vs →
      sumLengths acc rows = .ok (acc + vs.sum) := by
  intro rows
  induction rows with
  | nil =>
    intro acc vs h
    simp only [parseRows, Option.some.injEq] at h
    subst h
    simp [sumLengths]
  | cons item rest ih =>
    intro acc vs h
    rcases hf : (pySplit item '|').get? 1 with _ | fld
    · simp only [parseRows, hf, Option.none_bind] at h
      exact Option.noConfusion h
    · simp only [parseRows, hf, Option.some_bind] at h
      rcases hp : pyFloat fld with _ | v
      · simp only [hp] at h
        exact Option.noConfusion h
      · simp only [hp] at h
        rcases hrest : parseRows rest with _ | vs2
        · simp only [hrest] at h
          exact Option.noConfusion h
        · simp only [hrest, Option.some.injEq] at h
          subst h
          simp only [sumLengths, hf, hp]
          rw [ih (acc + v) vs2 hrest]
          simp only [List.sum_cons, Except.ok.injEq]
          ring

lemma length_len0 : length len0 = .ok 0 := by decide

lemma pyFloat_ten : pyFloat "10" = some (10 : ℚ) := by
  have h := pyFloat_nat "10" 10 (by decide)
  simpa using h

lemma length_len10 : length len10 = .ok 10 := by
  have hrows : ((pySplit len10.vtodb '\n').drop 1).dropLast = ["1|10"] := by
    decide
  have hmap : parseRows ["1|10"] = some [10] := by
    simp [parseRows,
      show (pySplit "1|10" '|')[1]? = some "10" from by decide, pyFloat_ten]
  have hsum := sumLengths_eq_sum ["1|10"] 0 [10] hmap
  simp only [length, show featCount len10.vinfo = .ok 1 from by decide, hrows]
  norm_num [hsum]

lemma GetCoeff_slope1_eval : GetCoeff coeffSlope1 = .ok 1 := by
  have h := GetCoeff_slope coeffSlope1 "1|0|0" "1|1|1" 0 0 1 1
    (by decide)
    (by rw [show (pySplit "1|0|0" '|').get? 1 = some "0" from by decide]
        simpa using pyFloat_nat "0" 0 (by decide))
    (by rw [show (pySplit "1|0|0" '|').get? 2 = some "0" from by decide]
        simpa using pyFloat_nat "0" 0 (by decide))
    (by decide)
    (by rw [show (pySplit "1|1|1" '|').get? 1 = some "1" from by decide]
        simpa using pyFloat_nat "1" 1 (by decide))
    (by rw [show (pySplit "1|1|1" '|').get? 2 = some "1" from by decide]
        simpa using pyFloat_nat "1" 1 (by decide))
    (by norm_num)
  rw [h]
  norm_num

lemma GetCoeff_slopeHalf_eval : GetCoeff coeffSlopeHalf = .ok (1/2) := by
  have h := GetCoeff_slope coeffSlopeHalf "1|0|0" "1|2|1" 0 0 2 1
    (by decide)
    (by rw [show (pySplit "1|0|0" '|').get? 1 = some "0" from by decide]
        simpa using pyFloat_nat "0" 0 (by decide))
    (by rw [show (pySplit "1|0|0" '|').get? 2 = some "0" from by decide]
        simpa using pyFloat_nat "0" 0 (by decide))
    (by decide)
    (by rw [show (pySplit "1|2|1" '|').get? 1 = some "2" from by decide]
        simpa using pyFloat_nat "2" 2 (by decide))
    (by rw [show (pySplit "1|2|1" '|').get? 2 = some "1" from by decide]
        simpa using pyFloat_nat "1" 1 (by decide))
    (by norm_num)
  rw [h]
  norm_num

lemma GetCoeff_slopeNeg1_eval : GetCoeff coeffSlopeNeg1 = .ok (-1) := by
  have h := GetCoeff_slope coeffSlopeNeg1 "1|0|0" "1|1|-1" 0 0 1 (-1)
    (by decide)
    (by rw [show (pySplit "1|0|0" '|').get? 1 = some "0" from by decide]
        simpa using pyFloat_nat "0" 0 (by decide))
    (by rw [show (pySplit "1|0|0" '|').get? 2 = some "0" from by decide]
        simpa using pyFloat_nat "0" 0 (by decide))
    (by decide)
    (by rw [show (pySplit "1|1|-1" '|').get? 1 = some "1" from by decide]
        simpa using pyFloat_nat "1" 1 (by decide))
    (by rw [show (pySplit "1|1|-1" '|').get? 2 = some "-1" from by decide]
        simpa using pyFloat_neg_nat "-1" 1 (by decide))
    (by norm_num)
  rw [h]
  norm_num

lemma GetStat_Wok (pid osm ref : String) (b : ℚ) :
    (GetStat Wok M0 pid osm ref b).2 = .ok (10, 10, 10, 10) := by
  simp [GetStat, Wok, length_len10]

/-- **C1.** In `v.osm.preproc`, an OSM subfeature extracted from the
overlay of the OSM dataset with the buffered reference feature is patched
into the accumulated output map if and only if
`degrees(abs(atan((m_ref - m_osm) / (1 + m_ref * m_osm))))` is at most
the angle threshold, where `m_ref` and `m_osm` are the `GetCoeff`
coefficients of the reference feature and of the subfeature; otherwise
the subfeature's temporary map is removed instead.  Stated for the loop
body `angSubStep` on the non-raising domain `1 + m_ref * m_osm ≠ 0`. -/
theorem C1_patch_iff_angle (W : AngWorld) (M : MathOps)
    (processid f : String) (angle_thres m_ref : ℚ) (z sf : String)
    (m_osm : ℚ) (tr : List Cmd) (z' : String)
    (hco : GetCoeff (W.coeff_sub sf) = .ok m_osm)
    (hden : 1 + m_ref * m_osm ≠ 0)
    (hrun : angSubStep W M processid f angle_thres m_ref z sf = (tr, .ok z')) :
    ((∃ inputs output, Cmd.patch inputs output ∈ tr) ↔
        newAngle M m_ref m_osm ≤ angle_thres) ∧
    (¬ newAngle M m_ref m_osm ≤ angle_thres →
      tr = [Cmd.extract ("odata_" ++ processid ++ "_" ++ f)
              ("odata_" ++ processid ++ "_" ++ f ++ "_" ++ sf)
              ("cat=" ++ sf),
            Cmd.remove ["odata_" ++ processid ++ "_" ++ f ++ "_" ++ sf]] ∧
      z' = z) := by
  by_cases hA : newAngle M m_ref m_osm ≤ angle_thres
  · simp only [angSubStep, hco, if_neg hden, if_pos hA, Prod.mk.injEq,
      Except.ok.injEq] at hrun
    obtain ⟨htr, hz⟩ := hrun
    subst htr
    refine ⟨iff_of_true
      ⟨["patch_" ++ processid ++ "_" ++ f ++ "_" ++ z,
        "odata_" ++ processid ++ "_" ++ f ++ "_" ++ sf],
       "patch_" ++ processid ++ "_" ++ f ++ "_" ++ sf, ?_⟩ hA,
      fun h => absurd hA h⟩
    simp
  · simp only [angSubStep, hco, if_neg hden, if_neg hA, Prod.mk.injEq,
      Except.ok.injEq] at hrun
    obtain ⟨htr, hz⟩ := hrun
    subst htr
    refine ⟨?_, fun _ => ⟨rfl, hz.symm⟩⟩
    constructor
    · rintro ⟨inputs, output, hmem⟩
      simp at hmem
    · intro h
      exact absurd h hA

/-- Witness for C1 at a concrete input: reference slope 1, subfeature
slope 1/2, threshold 1; the subfeature is patched and the equivalence
holds. -/
theorem C1_witness :
    ((∃ inputs output, Cmd.patch inputs output ∈
        [Cmd.extract "odata_p_7" "odata_p_7_5" "cat=5",
         Cmd.patch ["patch_p_7_0", "odata_p_7_5"] "patch_p_7_5",
         Cmd.remove ["patch_p_7_0", "odata_p_7_5"]]) ↔
      newAngle M0 1 (1/2) ≤ 1) := by
  have hco : GetCoeff (Wpatch.coeff_sub "5") = .ok (1/2) := by
    rw [show Wpatch.coeff_sub "5" = coeffSlopeHalf from rfl]
    exact GetCoeff_slopeHalf_eval
  have hrun : angSubStep Wpatch M0 "p" "7" 1 1 "0" "5" =
      ([Cmd.extract "odata_p_7" "odata_p_7_5" "cat=5",
        Cmd.patch ["patch_p_7_0", "odata_p_7_5"] "patch_p_7_5",
        Cmd.remove ["patch_p_7_0", "odata_p_7_5"]], .ok "5") := by
    have hA : newAngle M0 1 (1/2) ≤ 1 := by
      norm_num [newAngle, M0, abs_le]
    simp only [angSubStep, hco, if_pos hA]
    norm_num
    decide
  exact (C1_patch_iff_angle Wpatch M0 "p" "7" 1 1 "0" "5" (1/2) _ _
    hco (by norm_num) hrun).1

/-- **C2.** For every map, `length` returns 0 when the `v.info`
feature-count line reports zero features — without reading the
`v.to.db` length table — and when the count is positive it returns the
sum of the float values in the second pipe-delimited field of every line
of the length table except the first and the last. -/
theorem C2_length_zero_or_sum (o : LengthOutputs) :
    (featCount o.vinfo = .ok 0 → ∀ t, length ⟨o.vinfo, t⟩ = .ok 0) ∧
    (∀ (k : ℤ) (vs : List ℚ), featCount o.vinfo = .ok k → 0 < k →
      parseRows (((pySplit o.vtodb '\n').drop 1).dropLast) = some vs →
      length o = .ok vs.sum) := by
  constructor
  · intro h t
    simp [length, h]
  · intro k vs hk hkpos hrows
    have hsum := sumLengths_eq_sum _ 0 vs hrows
    simp only [length, hk]
    rw [if_pos hkpos, hsum]
    norm_num

/-- Witness for C2: a zero-feature map yields 0 for any length table,
and a two-row table sums its middle rows. -/
theorem C2_witness :
    length ⟨"a\nb\nlines=0", "whatever"⟩ = .ok 0 ∧
    length ⟨"a\nb\nlines=2", "cat|length\n1|10\n2|10.25\nend"⟩ =
      .ok ([(10 : ℚ), 41/4].sum) := by
  constructor
  · exact (C2_length_zero_or_sum ⟨"a\nb\nlines=0", "x"⟩).1 (by decide) "whatever"
  · refine (C2_length_zero_or_sum _).2 2 [10, 41/4] (by decide) (by decide) ?_
    have h1 : ((pySplit ("cat|length\n1|10\n2|10.25\nend" : String) '\n').drop
        1).dropLast = ["1|10", "2|10.25"] := by decide
    have h2 : pyFloat "10.25" = some (41/4) := by
      rw [pyFloat, show pyFloatParts "10.25" = some (false, 10, 25, 2) from by
        decide]
      norm_num [qOfParts]
    simp [h1, parseRows, show (pySplit "1|10" '|')[1]? = some "10" from by
      decide, show (pySplit "2|10.25" '|')[1]? = some "10.25" from by decide,
      pyFloat_ten, h2]

/-- **C6.** When the overlay of the OSM dataset with the buffered
reference feature contains zero lines, `AngulatComparison` removes the
three temporary maps created for the feature and skips it — no
angular-coefficient comparison, no patching — and still returns 0. -/
theorem C6_zero_overlay_skips (W : AngWorld) (M : MathOps)
    (f processid ref osm bf : String) (list_lines : List String)
    (angle_thres : ℚ)
    (h : featCount W.vinfo_odata = .ok 0) :
    AngulatComparison W M f processid ref osm bf list_lines angle_thres =
      ([Cmd.extract ref ("fdata_" ++ processid ++ "_" ++ f) ("cat=" ++ f),
        Cmd.copy ("patch_" ++ processid ++ "_0_0")
          ("patch_" ++ processid ++ "_" ++ f ++ "_0"),
        Cmd.buffer (list_lines.contains f) bf
          ("fdata_" ++ processid ++ "_" ++ f)
          ("fbuffer_" ++ processid ++ "_" ++ f),
        Cmd.overlay osm ("fbuffer_" ++ processid ++ "_" ++ f) "and"
          ("odata_" ++ processid ++ "_" ++ f),
        Cmd.remove ["fdata_" ++ processid ++ "_" ++ f,
          "fbuffer_" ++ processid ++ "_" ++ f,
          "odata_" ++ processid ++ "_" ++ f]], .ok 0) ∧
    ∀ inputs output, Cmd.patch inputs output ∉
      (AngulatComparison W M f processid ref osm bf list_lines
        angle_thres).1 := by
  have hmain : AngulatComparison W M f processid ref osm bf list_lines
      angle_thres =
      ([Cmd.extract ref ("fdata_" ++ processid ++ "_" ++ f) ("cat=" ++ f),
        Cmd.copy ("patch_" ++ processid ++ "_0_0")
          ("patch_" ++ processid ++ "_" ++ f ++ "_0"),
        Cmd.buffer (list_lines.contains f) bf
          ("fdata_" ++ processid ++ "_" ++ f)
          ("fbuffer_" ++ processid ++ "_" ++ f),
        Cmd.overlay osm ("fbuffer_" ++ processid ++ "_" ++ f) "and"
          ("odata_" ++ processid ++ "_" ++ f),
        Cmd.remove ["fdata_" ++ processid ++ "_" ++ f,
          "fbuffer_" ++ processid ++ "_" ++ f,
          "odata_" ++ processid ++ "_" ++ f]], .ok 0) := by
    simp [AngulatComparison, h]
  refine ⟨hmain, ?_⟩
  intro inputs output
  rw [hmain]
  simp

/-- Witness for C6 at a concrete zero-line overlay. -/
theorem C6_witness :
    AngulatComparison Wzero M0 "7" "p" "r" "o" "b" [] 1 =
      ([Cmd.extract "r" ("fdata_" ++ "p" ++ "_" ++ "7") ("cat=" ++ "7"),
        Cmd.copy ("patch_" ++ "p" ++ "_0_0")
          ("patch_" ++ "p" ++ "_" ++ "7" ++ "_0"),
        Cmd.buffer (([] : List String).contains "7") "b"
          ("fdata_" ++ "p" ++ "_" ++ "7") ("fbuffer_" ++ "p" ++ "_" ++ "7"),
        Cmd.overlay "o" ("fbuffer_" ++ "p" ++ "_" ++ "7") "and"
          ("odata_" ++ "p" ++ "_" ++ "7"),
        Cmd.remove ["fdata_" ++ "p" ++ "_" ++ "7",
          "fbuffer_" ++ "p" ++ "_" ++ "7",
          "odata_" ++ "p" ++ "_" ++ "7"]], .ok 0) :=
  (C6_zero_overlay_skips Wzero M0 "7" "p" "r" "o" "b" [] 1 (by decide)).1

/-- **C7 (amended).** The angle computation of `AngulatComparison` does
not raise precisely when `1 + m_ref * m_osm ≠ 0`; when the denominator
is zero it raises `ZeroDivisionError`, and pairs with zero denominator
are reachable — see the counterexample. -/
theorem C7_denominator (W : AngWorld) (M : MathOps) (pid f : String)
    (thres m_ref : ℚ) (z sf : String) (m_osm : ℚ)
    (hco : GetCoeff (W.coeff_sub sf) = .ok m_osm) :
    (1 + m_ref * m_osm ≠ 0 →
      ∃ tr z', angSubStep W M pid f thres m_ref z sf = (tr, .ok z')) ∧
    (1 + m_ref * m_osm = 0 →
      (angSubStep W M pid f thres m_ref z sf).2 = .error .zeroDivision) := by
  constructor
  · intro hden
    by_cases hA : newAngle M m_ref m_osm ≤ thres
    · exact ⟨[Cmd.extract ("odata_" ++ pid ++ "_" ++ f)
          ("odata_" ++ pid ++ "_" ++ f ++ "_" ++ sf) ("cat=" ++ sf),
        Cmd.patch ["patch_" ++ pid ++ "_" ++ f ++ "_" ++ z,
          "odata_" ++ pid ++ "_" ++ f ++ "_" ++ sf]
          ("patch_" ++ pid ++ "_" ++ f ++ "_" ++ sf),
        Cmd.remove ["patch_" ++ pid ++ "_" ++ f ++ "_" ++ z,
          "odata_" ++ pid ++ "_" ++ f ++ "_" ++ sf]], sf,
        by simp only [angSubStep, hco, if_neg hden, if_pos hA]⟩
    · exact ⟨[Cmd.extract ("odata_" ++ pid ++ "_" ++ f)
          ("odata_" ++ pid ++ "_" ++ f ++ "_" ++ sf) ("cat=" ++ sf),
        Cmd.remove ["odata_" ++ pid ++ "_" ++ f ++ "_" ++ sf]], z,
        by simp only [angSubStep, hco, if_neg hden, if_neg hA]⟩
  · intro hden
    simp [angSubStep, hco, hden]

/-- Counterexample to C7 as stated: `GetCoeff` can return the pair
(1, -1), for which `1 + m_ref * m_osm = 0` and the angle computation
raises `ZeroDivisionError` rather than evaluating. -/
theorem C7_counterexample :
    GetCoeff Wperp.coeff_fdata = .ok 1 ∧
    GetCoeff (Wperp.coeff_sub "5") = .ok (-1) ∧
    (1 : ℚ) + 1 * (-1) = 0 ∧
    (angSubStep Wperp M0 "p" "7" 1 1 "0" "5").2 = .error .zeroDivision := by
  have hco : GetCoeff (Wperp.coeff_sub "5") = .ok (-1) :=
    GetCoeff_slopeNeg1_eval
  refine ⟨GetCoeff_slope1_eval, hco, by norm_num, ?_⟩
  simp only [angSubStep, hco]
  rw [if_pos (by norm_num : (1 : ℚ) + 1 * (-1) = 0)]

/-- Witness for the amended C7 at a denominator that is nonzero. -/
theorem C7_witness :
    ∃ tr z', angSubStep Wpatch M0 "p" "7" 1 1 "0" "5" = (tr, .ok z') :=
  (C7_denominator Wpatch M0 "p" "7" 1 1 "0" "5" (1/2)
    GetCoeff_slopeHalf_eval).1 (by norm_num)

/-- **C8 (amended).** `GetCoeff` returns the slope when the start line
exists, all four coordinates parse and `x_end ≠ x_start`; it returns the
sentinel `10^9` when `x_end = x_start` or when *any* step inside the
`try` block fails — the x_start, y_start, x_end or y_end field parse, or
the extraction of the second line of the end-coordinate table; but when
the start-coordinate output has no second line the IndexError is raised
*outside* the `try` block and propagates.  The nesting below follows the
evaluation order of lines 101–113, one sentinel conclusion per failure
point. -/
theorem C8_GetCoeff_cases (o : CoeffOutputs) :
    ((pySplit o.startOut '\n')[1]? = none →
      GetCoeff o = .error .indexError) ∧
    (∀ ls, (pySplit o.startOut '\n')[1]? = some ls →
      (((pySplit ls '|')[1]?).bind pyFloat = none →
        GetCoeff o = .ok (10 ^ 9)) ∧
      (∀ xs, ((pySplit ls '|')[1]?).bind pyFloat = some xs →
        (((pySplit ls '|')[2]?).bind pyFloat = none →
          GetCoeff o = .ok (10 ^ 9)) ∧
        (∀ ys, ((pySplit ls '|')[2]?).bind pyFloat = some ys →
          ((pySplit o.endOut '\n')[1]? = none →
            GetCoeff o = .ok (10 ^ 9)) ∧
          (∀ le, (pySplit o.endOut '\n')[1]? = some le →
            (((pySplit le '|')[1]?).bind pyFloat = none →
              GetCoeff o = .ok (10 ^ 9)) ∧
            (∀ xe, ((pySplit le '|')[1]?).bind pyFloat = some xe →
              (((pySplit le '|')[2]?).bind pyFloat = none →
                GetCoeff o = .ok (10 ^ 9)) ∧
              (∀ ye, ((pySplit le '|')[2]?).bind pyFloat = some ye →
                (xe - xs ≠ 0 →
                  GetCoeff o = .ok ((ye - ys) / (xe - xs))) ∧
                (xe - xs = 0 →
                  GetCoeff o = .ok (10 ^ 9)))))))) := by
  refine ⟨?_, ?_⟩
  · intro h
    simp [GetCoeff, h]
  · intro ls h1
    refine ⟨?_, ?_⟩
    · intro h2
      simp [GetCoeff, getCoeffTry, h1, h2]
    · intro xs h2
      refine ⟨?_, ?_⟩
      · intro h3
        simp [GetCoeff, getCoeffTry, h1, h2, h3]
      · intro ys h3
        refine ⟨?_, ?_⟩
        · intro h4
          simp [GetCoeff, getCoeffTry, h1, h2, h3, h4]
        · intro le h4
          refine ⟨?_, ?_⟩
          · intro h5
            simp [GetCoeff, getCoeffTry, h1, h2, h3, h4, h5]
          · intro xe h5
            refine ⟨?_, ?_⟩
            · intro h6
              simp [GetCoeff, getCoeffTry, h1, h2, h3, h4, h5, h6]
            · intro ye h6
              refine ⟨?_, ?_⟩
              · intro h7
                simp [GetCoeff, getCoeffTry, h1, h2, h3, h4, h5, h6, h7]
              · intro h7
                simp [GetCoeff, getCoeffTry, h1, h2, h3, h4, h5, h6, h7]

/-- Witness for the amended C8: a concrete parsable segment hits the
slope case, and a concrete run whose end-coordinate table has no second
line (an in-`try` failure) hits a sentinel case. -/
theorem C8_witness :
    GetCoeff coeffSlope1 = .ok (((1 : ℚ) - 0) / (1 - 0)) ∧
    GetCoeff ⟨"h\n1|0|0", ""⟩ = .ok (10 ^ 9) := by
  have hx0 : ((pySplit "1|0|0" '|')[1]?).bind pyFloat = some 0 := by
    rw [show (pySplit "1|0|0" '|')[1]? = some "0" from by decide]
    simpa using pyFloat_nat "0" 0 (by decide)
  have hy0 : ((pySplit "1|0|0" '|')[2]?).bind pyFloat = some 0 := by
    rw [show (pySplit "1|0|0" '|')[2]? = some "0" from by decide]
    simpa using pyFloat_nat "0" 0 (by decide)
  constructor
  · exact ((((((((C8_GetCoeff_cases coeffSlope1).2 "1|0|0"
      (by decide)).2 0 hx0).2 0 hy0).2 "1|1|1" (by decide)).2 1
      (by rw [show (pySplit "1|1|1" '|')[1]? = some "1" from by decide]
          simpa using pyFloat_nat "1" 1 (by decide))).2 1
      (by rw [show (pySplit "1|1|1" '|')[2]? = some "1" from by decide]
          simpa using pyFloat_nat "1" 1 (by decide))).1
      (by norm_num))
  · exact ((((C8_GetCoeff_cases ⟨"h\n1|0|0", ""⟩).2 "1|0|0"
      (by decide)).2 0 hx0).2 0 hy0).1 (by decide)

/-- Counterexample to C8 as stated: an empty start-coordinate output (no
second line) makes `GetCoeff` raise IndexError instead of returning the
sentinel. -/
theorem C8_counterexample :
    GetCoeff ⟨"", ""⟩ = .error .indexError ∧
    GetCoeff ⟨"", ""⟩ ≠ .ok (10 ^ 9) := by
  constructor
  · decide
  · decide

/-- **C10.** Every `AngulatComparison` invocation that returns, returns
0; hence every marker the workers push is 0, the truthy filter over the
collected markers is empty, and the error branch is unreachable. -/
theorem C10_markers_zero (W : AngWorld) (M : MathOps)
    (f processid ref osm bf : String) (list_lines : List String)
    (angle_thres : ℚ) (tr : List Cmd) (v : ℤ)
    (h : AngulatComparison W M f processid ref osm bf list_lines angle_thres
      = (tr, .ok v)) :
    v = 0 ∧
    ∀ processed : List ℤ, (∀ p ∈ processed, p = 0) →
      truthyMarkers processed = [] := by
  constructor
  · unfold AngulatComparison at h
    rcases hfc : featCount W.vinfo_odata with e | n <;> simp only [hfc] at h
    · simp at h
    · by_cases hn : n = 0
      · rw [if_pos hn] at h
        simp only [Prod.mk.injEq, Except.ok.injEq] at h
        exact h.2.symm
      · rw [if_neg hn] at h
        rcases hgc : GetCoeff W.coeff_fdata with e | m_ref <;>
          simp only [hgc] at h
        · simp at h
        · rcases hloop : angLoop W M processid f angle_thres m_ref "0"
              ((pySplit W.dbsel_cats '\n').dropLast) with ⟨tr2, r2⟩
          rcases r2 with e | z'
          · simp only [hloop] at h
            simp at h
          · simp only [hloop] at h
            simp only [Prod.mk.injEq, Except.ok.injEq] at h
            exact h.2.symm
  · intro processed
    induction processed with
    | nil => intro _; simp [truthyMarkers]
    | cons p ps ih =>
      intro hall
      have hp : p = 0 := hall p (List.mem_cons_self p ps)
      have hps := ih (fun q hq => hall q (List.mem_cons_of_mem p hq))
      simp only [truthyMarkers] at hps ⊢
      simp [hp, hps, List.filter]
      exact fun a ha => hall a (List.mem_cons_of_mem p ha)

/-- Witness for C10: the concrete zero-line run returns 0 and a list of
zero markers filters to the empty error list. -/
theorem C10_witness :
    (0 : ℤ) = 0 ∧ truthyMarkers [0, 0] = [] := by
  have h := C10_markers_zero Wzero M0 "7" "p" "r" "o" "b" [] 1
    ([Cmd.extract "r" ("fdata_" ++ "p" ++ "_" ++ "7") ("cat=" ++ "7"),
      Cmd.copy ("patch_" ++ "p" ++ "_0_0")
        ("patch_" ++ "p" ++ "_" ++ "7" ++ "_0"),
      Cmd.buffer (([] : List String).contains "7") "b"
        ("fdata_" ++ "p" ++ "_" ++ "7") ("fbuffer_" ++ "p" ++ "_" ++ "7"),
      Cmd.overlay "o" ("fbuffer_" ++ "p" ++ "_" ++ "7") "and"
        ("odata_" ++ "p" ++ "_" ++ "7"),
      Cmd.remove ["fdata_" ++ "p" ++ "_" ++ "7",
        "fbuffer_" ++ "p" ++ "_" ++ "7",
        "odata_" ++ "p" ++ "_" ++ "7"]]) 0 (by decide)
  exact ⟨h.1, h.2 [0, 0] (by decide)⟩

/-- **C4 (code bug in `v.osm.precomp`).** In `v.osm.preproc`, a
zero-length reference (or OSM) dataset removes the temporary maps
matching the process id and aborts with the documented fatal message.
In `v.osm.precomp`, however, the same branches read the local
`processid` before its assignment, so the script raises
`UnboundLocalError` instead of cleaning up and aborting fatally. -/
theorem C4_zero_length_abort :
    (∀ (W : PreprocWorld) (osm ref : String) (l_osm : ℚ),
      W.findFile osm = true → W.findFile ref = true →
      length (W.lenOut osm) = .ok l_osm →
      length (W.lenOut ref) = .ok 0 →
      mainPreprocPrologue W osm ref =
        ([Cmd.removePattern W.processid],
         .error (.fatal "No reference data for comparison"))) ∧
    (∀ (W : PreprocWorld) (osm ref : String) (l_ref : ℚ),
      W.findFile osm = true → W.findFile ref = true →
      length (W.lenOut osm) = .ok 0 →
      length (W.lenOut ref) = .ok l_ref → l_ref ≠ 0 →
      mainPreprocPrologue W osm ref =
        ([Cmd.removePattern W.processid],
         .error (.fatal "No OSM data for comparison"))) ∧
    (∀ (W : PrecompWorld) (M : MathOps) (osm ref roi buffers : String)
      (s_osm : ℚ),
      W.findFile osm = true → W.findFile ref = true →
      (0 < roi.length → W.findFile roi = true) →
      length (W.lenOut ref) = .ok 0 →
      length (W.lenOut osm) = .ok s_osm →
      mainPrecomp W M osm ref roi buffers =
        ([], .error (.unboundLocal "processid"))) ∧
    (∀ (W : PrecompWorld) (M : MathOps) (osm ref roi buffers : String)
      (s_ref : ℚ),
      W.findFile osm = true → W.findFile ref = true →
      (0 < roi.length → W.findFile roi = true) →
      length (W.lenOut ref) = .ok s_ref → s_ref ≠ 0 →
      length (W.lenOut osm) = .ok 0 →
      mainPrecomp W M osm ref roi buffers =
        ([], .error (.unboundLocal "processid"))) := by
  refine ⟨?_, ?_, ?_, ?_⟩
  · intro W osm ref l_osm hosm href hlosm hlref
    simp [mainPreprocPrologue, hosm, href, hlosm, hlref]
  · intro W osm ref l_ref hosm href hlosm hlref hnz
    simp [mainPreprocPrologue, hosm, href, hlosm, hlref, hnz]
  · intro W M osm ref roi buffers s_osm hosm href hroi hlref hlosm
    have h3 : ¬(0 < roi.length ∧ W.findFile roi = false) := by
      rintro ⟨h1, h2⟩
      rw [hroi h1] at h2
      simp at h2
    simp [mainPrecomp, hosm, href, h3, hlref, hlosm]
  · intro W M osm ref roi buffers s_ref hosm href hroi hlref hnz hlosm
    have h3 : ¬(0 < roi.length ∧ W.findFile roi = false) := by
      rintro ⟨h1, h2⟩
      rw [hroi h1] at h2
      simp at h2
    simp [mainPrecomp, hosm, href, h3, hlref, hlosm, hnz]

/-- Witness for C4 at the failing input: all dataset lengths zero. -/
theorem C4_witness :
    mainPreprocPrologue WlenZero "o" "r" =
      ([Cmd.removePattern "pid"],
       .error (.fatal "No reference data for comparison")) ∧
    mainPrecomp WprecompZero M0 "o" "r" "" "10" =
      ([], .error (.unboundLocal "processid")) :=
  ⟨C4_zero_length_abort.1 WlenZero "o" "r" 0 rfl rfl length_len0 length_len0,
   C4_zero_length_abort.2.2.1 WprecompZero M0 "o" "r" "" "10" 0 rfl rfl
     (fun _ => rfl) length_len0 length_len0⟩

/-- **C5.** In both scripts, a required input map that does not resolve
makes the script abort with the fatal message `Vector map <name> not
found` with no geometry command invoked (empty trace); in
`v.osm.precomp` the same holds for a non-empty roi. -/
theorem C5_missing_map_abort :
    (∀ (W : PreprocWorld) (osm ref : String), W.findFile osm = false →
      mainPreprocPrologue W osm ref =
        ([], .error (.fatal ("Vector map <" ++ osm ++ "> not found")))) ∧
    (∀ (W : PreprocWorld) (osm ref : String), W.findFile osm = true →
      W.findFile ref = false →
      mainPreprocPrologue W osm ref =
        ([], .error (.fatal ("Vector map <" ++ ref ++ "> not found")))) ∧
    (∀ (W : PrecompWorld) (M : MathOps) (osm ref roi buffers : String),
      W.findFile osm = false →
      mainPrecomp W M osm ref roi buffers =
        ([], .error (.fatal ("Vector map <" ++ osm ++ "> not found")))) ∧
    (∀ (W : PrecompWorld) (M : MathOps) (osm ref roi buffers : String),
      W.findFile osm = true → W.findFile ref = false →
      mainPrecomp W M osm ref roi buffers =
        ([], .error (.fatal ("Vector map <" ++ ref ++ "> not found")))) ∧
    (∀ (W : PrecompWorld) (M : MathOps) (osm ref roi buffers : String),
      W.findFile osm = true → W.findFile ref = true → 0 < roi.length →
      W.findFile roi = false →
      mainPrecomp W M osm ref roi buffers =
        ([], .error (.fatal ("Vector map <" ++ roi ++ "> not found")))) := by
  refine ⟨?_, ?_, ?_, ?_, ?_⟩
  · intro W osm ref h
    simp [mainPreprocPrologue, h]
  · intro W osm ref hosm h
    simp [mainPreprocPrologue, hosm, h]
  · intro W M osm ref roi buffers h
    simp [mainPrecomp, h]
  · intro W M osm ref roi buffers hosm h
    simp [mainPrecomp, hosm, h]
  · intro W M osm ref roi buffers hosm href hlen h
    simp only [mainPrecomp, hosm, href]
    rw [if_neg (by simp [hosm]), if_neg (by simp [href]),
      if_pos ⟨hlen, h⟩]

/-- Witness for C5: a missing OSM map in `v.osm.preproc` and a missing
roi map in `v.osm.precomp`. -/
theorem C5_witness :
    mainPreprocPrologue WnoFile "o" "r" =
      ([], .error (.fatal ("Vector map <" ++ "o" ++ "> not found"))) ∧
    mainPrecomp WnoRoi M0 "o" "r" "m" "10" =
      ([], .error (.fatal ("Vector map <" ++ "m" ++ "> not found"))) :=
  ⟨C5_missing_map_abort.1 WnoFile "o" "r" rfl,
   C5_missing_map_abort.2.2.2.2 WnoRoi M0 "o" "r" "m" "10"
     (by decide) (by decide) (by decide) (by decide)⟩

/-- **C3 (amended).** Every run of `v.osm.precomp` that reaches the
report-writing step writes exactly: the REF length line, the OSM length
line, the REF−OSM difference line with its percentage
`(s_ref − s_osm)/s_ref·100`, a blank line, the 9-column pipe-delimited
header, then one pipe-delimited row per buffer value in the given order,
each row holding the buffer value *as given (not rounded)* followed by
the OSM in/out and REF in/out lengths and percentages, those eight
measured values rounded to one decimal. -/
theorem C3_report_layout (W : PrecompWorld) (M : MathOps)
    (osm ref roi buffers : String) (s_ref s_osm : ℚ) (bs : List ℚ)
    (g : ℕ → ℚ → ℚ × ℚ × ℚ × ℚ)
    (hosm : W.findFile osm = true) (href : W.findFile ref = true)
    (hroi : 0 < roi.length → W.findFile roi = true)
    (hlref : length (W.lenOut ref) = .ok s_ref)
    (hlosm : length (W.lenOut osm) = .ok s_osm)
    (hs_ref : s_ref ≠ 0) (hs_osm : s_osm ≠ 0)
    (hb : pyMapFloat (pySplit buffers ',') = some bs)
    (hstat : ∀ i b, (GetStat W M (W.statPid i) (osmAfterRoi W roi osm)
      (refAfterRoi W roi ref) b).2 = .ok (g i b)) :
    (mainPrecomp W M osm ref roi buffers).2 =
      .ok ("REF length: " ++ M.fmt (pyRound1 s_ref) ++ " m\n" ++
           "OSM length: " ++ M.fmt (pyRound1 s_osm) ++ " m\n" ++
           "REF-OSM difference: " ++ M.fmt (pyRound1 (s_ref - s_osm)) ++
             " m (" ++ M.fmt (pyRound1 ((s_ref - s_osm) / s_ref * 100)) ++
             "%)\n" ++
           "\n" ++
           "BUFFER(m)|OSM_IN(m)|OSM_IN(%%)|OSM_OUT(m)|OSM_OUT(%%)|REF_IN(m)|REF_IN(%%)|REF_OUT(m)|REF_OUT(%%)\n" ++
           concatRows (expectedRows M g s_osm s_ref 0 bs)) := by
  rw [mainPrecomp_file W M osm ref roi buffers s_ref s_osm bs g hosm href
    hroi hlref hlosm hs_ref hs_osm hb hstat]
  simp [reportHead, reportHeader, String.append_assoc]

/-- Witness for the amended C3 at a concrete run (no roi, one buffer
value 0.05, every length 10). -/
theorem C3_witness :
    (mainPrecomp Wok M0 "o" "r" "" "0.05").2 =
      .ok ("REF length: " ++ M0.fmt (pyRound1 10) ++ " m\n" ++
           "OSM length: " ++ M0.fmt (pyRound1 10) ++ " m\n" ++
           "REF-OSM difference: " ++ M0.fmt (pyRound1 ((10 : ℚ) - 10)) ++
             " m (" ++ M0.fmt (pyRound1 (((10 : ℚ) - 10) / 10 * 100)) ++
             "%)\n" ++
           "\n" ++
           "BUFFER(m)|OSM_IN(m)|OSM_IN(%%)|OSM_OUT(m)|OSM_OUT(%%)|REF_IN(m)|REF_IN(%%)|REF_OUT(m)|REF_OUT(%%)\n" ++
           concatRows (expectedRows M0 (fun _ _ => (10, 10, 10, 10)) 10 10 0
             [1/20])) :=
  C3_report_layout Wok M0 "o" "r" "" "0.05" 10 10 [1/20]
    (fun _ _ => (10, 10, 10, 10)) rfl rfl (fun h => absurd h (by decide))
    length_len10 length_len10 (by norm_num) (by norm_num)
    (by rw [show pySplit "0.05" ',' = ["0.05"] from by decide]
        simp [pyMapFloat, show pyFloat "0.05" = some (1/20) from by
          rw [pyFloat,
            show pyFloatParts "0.05" = some (false, 0, 5, 2) from by decide]
          norm_num [qOfParts]])
    (fun i b => GetStat_Wok _ _ _ b)

/-- **C9.** With a clipping mask, the totals and the difference in the
report come from the *unclipped* datasets (`length` of the original
names), while each per-buffer row measures the *clipped* maps
`osm_roi_<pid>` / `ref_roi_<pid>`; each percentage therefore divides a
clipped length by the unclipped dataset total. -/
theorem C9_roi_mixed_totals (W : PrecompWorld) (M : MathOps)
    (osm ref roi buffers : String) (s_ref s_osm : ℚ) (bs : List ℚ)
    (g : ℕ → ℚ → ℚ × ℚ × ℚ × ℚ)
    (hroilen : 0 < roi.length)
    (hosm : W.findFile osm = true) (href : W.findFile ref = true)
    (hroi : W.findFile roi = true)
    (hlref : length (W.lenOut ref) = .ok s_ref)
    (hlosm : length (W.lenOut osm) = .ok s_osm)
    (hs_ref : s_ref ≠ 0) (hs_osm : s_osm ≠ 0)
    (hb : pyMapFloat (pySplit buffers ',') = some bs)
    (hstat : ∀ i b, (GetStat W M (W.statPid i) ("osm_roi_" ++ W.processid)
      ("ref_roi_" ++ W.processid) b).2 = .ok (g i b)) :
    (mainPrecomp W M osm ref roi buffers).2 =
      .ok (reportHead M s_ref s_osm (s_ref - s_osm)
             ((s_ref - s_osm) / s_ref * 100) ++
           concatRows (expectedRows M g s_osm s_ref 0 bs)) := by
  apply mainPrecomp_file W M osm ref roi buffers s_ref s_osm bs g hosm href
    (fun _ => hroi) hlref hlosm hs_ref hs_osm hb
  intro i b
  have h1 : osmAfterRoi W roi osm = "osm_roi_" ++ W.processid := by
    simp [osmAfterRoi, hroilen]
  have h2 : refAfterRoi W roi ref = "ref_roi_" ++ W.processid := by
    simp [refAfterRoi, hroilen]
  rw [h1, h2]
  exact hstat i b

/-- Witness for C9 at a concrete clipped run. -/
theorem C9_witness :
    (mainPrecomp Wok M0 "o" "r" "m" "10").2 =
      .ok (reportHead M0 10 10 ((10 : ℚ) - 10) (((10 : ℚ) - 10) / 10 * 100) ++
           concatRows (expectedRows M0 (fun _ _ => (10, 10, 10, 10)) 10 10 0
             [10])) :=
  C9_roi_mixed_totals Wok M0 "o" "r" "m" "10" 10 10 [10]
    (fun _ _ => (10, 10, 10, 10)) (by decide) rfl rfl rfl length_len10
    length_len10 (by norm_num) (by norm_num)
    (by rw [show pySplit "10" ',' = ["10"] from by decide]
        simp [pyMapFloat, pyFloat_ten])
    (fun i b => GetStat_Wok _ _ _ b)

set_option maxRecDepth 100000 in
/-- Counterexample to C3 as stated: at buffer value 0.05 the produced
report writes the buffer value unrounded, so the file differs from the
one mandated by "every numeric value rounded to one decimal" (which
would print the buffer as round(0.05, 1)). -/
theorem C3_counterexample :
    (mainPrecomp Wok M0 "o" "r" "" "0.05").2 ≠
      .ok ("REF length: " ++ M0.fmt (pyRound1 10) ++ " m\n" ++
           "OSM length: " ++ M0.fmt (pyRound1 10) ++ " m\n" ++
           "REF-OSM difference: " ++ M0.fmt (pyRound1 ((10 : ℚ) - 10)) ++
             " m (" ++ M0.fmt (pyRound1 (((10 : ℚ) - 10) / 10 * 100)) ++
             "%)\n" ++
           "\n" ++
           "BUFFER(m)|OSM_IN(m)|OSM_IN(%%)|OSM_OUT(m)|OSM_OUT(%%)|REF_IN(m)|REF_IN(%%)|REF_OUT(m)|REF_OUT(%%)\n" ++
           concatRows (claimRows M0 (fun _ _ => (10, 10, 10, 10)) 10 10 0
             [1/20])) := by
  have hb : pyMapFloat (pySplit "0.05" ',') = some [1/20] := by
    rw [show pySplit "0.05" ',' = ["0.05"] from by decide]
    simp [pyMapFloat, show pyFloat "0.05" = some (1/20) from by
      rw [pyFloat, show pyFloatParts "0.05" = some (false, 0, 5, 2) from by
        decide]
      norm_num [qOfParts]]
  have hfile := mainPrecomp_file Wok M0 "o" "r" "" "0.05" 10 10 [1/20]
    (fun _ _ => (10, 10, 10, 10)) rfl rfl (fun h => absurd h (by decide))
    length_len10 length_len10 (by norm_num) (by norm_num) hb
    (fun i b => GetStat_Wok _ _ _ b)
  have hp10 : pyRound1 (10 : ℚ) = 10 := by
    norm_num [pyRound1, roundHalfAway, ratFloor,
      show Int.fdiv 201 2 = 100 from by decide]
  have hp0 : pyRound1 (0 : ℚ) = 0 := by
    norm_num [pyRound1, roundHalfAway, ratFloor,
      show Int.fdiv 1 2 = 0 from by decide]
  have hp100 : pyRound1 (100 : ℚ) = 100 := by
    norm_num [pyRound1, roundHalfAway, ratFloor,
      show Int.fdiv 2001 2 = 1000 from by decide]
  have hp120 : pyRound1 (1/20 : ℚ) = 1/10 := by
    norm_num [pyRound1, roundHalfAway, ratFloor]
  have hf10 : M0.fmt (10 : ℚ) = "10000" := by
    show fmtQ 10 = "10000"
    rw [fmtQ, show ((10 : ℚ) * 1000) = 10000 by norm_num,
      show ratFloor 10000 = 10000 by
        simp only [ratFloor]
        norm_num]
    decide
  have hf0 : M0.fmt (0 : ℚ) = "0" := by
    show fmtQ 0 = "0"
    rw [fmtQ, show ((0 : ℚ) * 1000) = 0 by norm_num,
      show ratFloor 0 = 0 by
        simp only [ratFloor]
        norm_num]
    decide
  have hf100 : M0.fmt (100 : ℚ) = "100000" := by
    show fmtQ 100 = "100000"
    rw [fmtQ, show ((100 : ℚ) * 1000) = 100000 by norm_num,
      show ratFloor 100000 = 100000 by
        simp only [ratFloor]
        norm_num]
    decide
  have hf120 : M0.fmt ((1 : ℚ)/20) = "50" := by
    show fmtQ (1/20) = "50"
    rw [fmtQ, show ((1/20 : ℚ) * 1000) = 50 by norm_num,
      show ratFloor 50 = 50 by
        simp only [ratFloor]
        norm_num]
    decide
  have hf110 : M0.fmt ((1 : ℚ)/10) = "100" := by
    show fmtQ (1/10) = "100"
    rw [fmtQ, show ((1/10 : ℚ) * 1000) = 100 by norm_num,
      show ratFloor 100 = 100 by
        simp only [ratFloor]
        norm_num]
    decide
  rw [hfile]
  simp only [Ne, Except.ok.injEq]
  norm_num [reportHead, reportHeader, expectedRows, expectedRow, claimRows,
    concatRows, hp10, hp0, hp100, hp120, hf10, hf0, hf100, hf120, hf110]
  decide
